import Mathlib

/-!
Verification of the browser-agent repository's specification against a
shallow embedding of its code.

The embedding covers the three core components:
 - the command parser (src/parser.py): a backtracking regular-expression
   matcher reproducing Python `re.match` semantics for the construct set the
   pattern table uses, the pattern table `COMMAND_PATTERNS`, and
   `parse_command`;
 - the browser controller (src/browser.py): the element-resolution chain
   `_find_element` (instrumented with the list of wait_for_selector calls it
   issues, so that per-strategy timeouts are visible), the `_submit`,
   `_type`, `_click`, `_login`, `_search`, `_navigate` handlers and the
   `execute` dispatcher, over an oracle model of the Playwright page;
 - the CAPTCHA handler (src/captcha_handler.py): `detect_captcha` and the
   manual-intervention polling loop.

Playwright pages are modelled as structures of pure oracle functions: each
page-capability call returns `Except String r` where `.error m` stands for
the call raising a host exception whose `str()` is `m`, and `.ok` carries
the call's return value.  `wait_for_selector` results are modelled as
`Except String (Option Elem)`: Playwright raises on timeout, but the code
also guards each returned handle with a truthiness test, and the model keeps
both cases.  Where the source calls the same capability with identical
arguments at several program points (`wait_for_load_state("networkidle")`),
the oracle takes an extra call-site tag so distinct calls may behave
differently.  Errors in the Python exception hierarchy are modelled by
`BAErr` (a `BrowserAutomationError` with its subtype tag and message);
`except BrowserAutomationError` catches every `BAErr`.
-/

namespace Agent

/-! ## Python regular expressions, shallowly

The parser's patterns use only: literal text, single-character classes,
greedy `+` and `*` over a character class, ordered alternation, greedy
optional groups, and numbered capture groups.  `mrun` is a backtracking
matcher in continuation style that explores exactly the candidate order
CPython's `re` engine uses (alternatives left to right, repetitions longest
first), so the first success it returns is the match `re.match` returns.
`{2,}` is expressed as a class atom followed by `+` over the same class,
which preserves the backtracking order. -/

inductive Rx where
  | lit (s : List Char)
  | cls (p : Char → Bool)
  | rep1 (p : Char → Bool)
  | rep0 (p : Char → Bool)
  | seq (a b : Rx)
  | alt (a b : Rx)
  | opt (a : Rx)
  | grp (n : Nat) (a : Rx)

/-- Captured groups: group number paired with the captured characters. -/
abbrev Caps := List (Nat × List Char)

/-- Strip a literal from the front of the input, or fail. -/
def dropLit : List Char → List Char → Option (List Char)
  | [], cs => some cs
  | _ :: _, [] => none
  | l :: ls, c :: cs => if l = c then dropLit ls cs else none

/-- Length of the longest prefix whose characters all satisfy `p`. -/
def leadCount (p : Char → Bool) : List Char → Nat
  | [] => 0
  | c :: cs => if p c then leadCount p cs + 1 else 0

/-- Try `f i` for `i = n, n-1, …, 1` and return the first success: the
backtracking order of a greedy repetition. -/
def tryDown (f : Nat → Option Caps) : Nat → Option Caps
  | 0 => none
  | i + 1 =>
    match f (i + 1) with
    | some r => some r
    | none => tryDown f i

/-- Backtracking matcher in continuation style.  `mrun r cs caps k` explores
ways for `r` to consume a prefix of `cs`, calling `k` on the rest and the
captures, in CPython's candidate order. -/
def mrun : Rx → List Char → Caps → (List Char → Caps → Option Caps) → Option Caps
  | .lit s, cs, caps, k =>
    match dropLit s cs with
    | some rest => k rest caps
    | none => none
  | .cls p, cs, caps, k =>
    match cs with
    | [] => none
    | c :: rest => if p c then k rest caps else none
  | .rep1 p, cs, caps, k => tryDown (fun i => k (cs.drop i) caps) (leadCount p cs)
  | .rep0 p, cs, caps, k =>
    match tryDown (fun i => k (cs.drop i) caps) (leadCount p cs) with
    | some r => some r
    | none => k cs caps
  | .seq a b, cs, caps, k => mrun a cs caps (fun cs2 caps2 => mrun b cs2 caps2 k)
  | .alt a b, cs, caps, k =>
    match mrun a cs caps k with
    | some r => some r
    | none => mrun b cs caps k
  | .opt a, cs, caps, k =>
    match mrun a cs caps k with
    | some r => some r
    | none => k cs caps
  | .grp n a, cs, caps, k =>
    mrun a cs caps (fun cs2 caps2 => k cs2 ((n, cs.take (cs.length - cs2.length)) :: caps2))

/-- `re.match(pattern, s)`: anchored at the start, free at the end.  Returns
the captures of the first match in backtracking order, or `none`. -/
def pymatch (r : Rx) (cs : List Char) : Option Caps :=
  mrun r cs [] (fun _ caps => some caps)

/-- `m.group(n)` as characters: `none` when the group did not participate. -/
def capGet (caps : Caps) (n : Nat) : Option (List Char) :=
  match caps with
  | [] => none
  | (m, v) :: rest => if m = n then some v else capGet rest n

/-- `m.group(n)` as a string. -/
def capStr (caps : Caps) (n : Nat) : Option String :=
  (capGet caps n).map String.mk

/-! ### Character classes of the pattern table

The input is lowercased before matching, and every literal in the patterns
is lowercase, so the `re.IGNORECASE` flag passed by `parse_command` is
inert; the classes below are the ASCII classes written in the patterns. -/

/-- The class written as a quote pair in the patterns. -/
def isQuoteC (c : Char) : Bool := c = '\'' || c = '"'

/-- The negated quote class in quoted-value captures. -/
def isNotQuoteC (c : Char) : Bool := !(c = '\'' || c = '"')

/-- The class a-zA-Z0-9 plus space. -/
def isAlnumSp (c : Char) : Bool := c.isAlphanum || c = ' '

/-- The domain class: a-zA-Z0-9 plus dot and hyphen. -/
def isDomainC (c : Char) : Bool := c.isAlphanum || c = '.' || c = '-'

/-- The class a-zA-Z. -/
def isAlphaC (c : Char) : Bool := c.isAlpha

/-- The class of digits and dot used for seconds. -/
def isDigitDot (c : Char) : Bool := c.isDigit || c = '.'

/-- The negated-whitespace class of URL paths. -/
def isNonSpace (c : Char) : Bool := !c.isWhitespace

/-- Literal regex from a string. -/
def rlit (s : String) : Rx := .lit s.toList

/-- Sequence a list of regexes (right-nested, ending in the empty literal). -/
def rseq (l : List Rx) : Rx := l.foldr .seq (rlit "")

/-- The registered-domain shape shared by navigate, login and search:
one-or-more domain characters, a dot, then two-or-more letters. -/
def rxDomainCore : Rx :=
  rseq [.rep1 isDomainC, rlit ".", .cls isAlphaC, .rep1 isAlphaC]

/-! ### COMMAND_PATTERNS, pattern by pattern (src/parser.py lines 9-51) -/

/-- Pattern of the navigate rule. -/
def rxNavigate : Rx := rseq [
  .alt (rlit "go to") (.alt (rlit "navigate to") (rlit "open")),
  rlit " ",
  .opt (rlit "the "),
  .opt (.alt (rlit "website ") (.alt (rlit "site ") (rlit "page "))),
  .opt (rlit "at "),
  .opt (rseq [rlit "http", .opt (rlit "s"), rlit "://"]),
  .grp 1 (rseq [rxDomainCore, .opt (rseq [rlit "/", .rep0 isNonSpace])])]

/-- Pattern of the quoted-text click rule. -/
def rxClickQuoted : Rx := rseq [
  rlit "click", .opt (rlit " on"), rlit " ", .opt (rlit "the "),
  .alt (rlit "button") (.alt (rlit "link") (rlit "element")),
  .opt (rseq [rlit " ", .alt (rlit "with") (.alt (rlit "that says") (rlit "containing"))]),
  rlit " ", .cls isQuoteC, .grp 1 (.rep1 isNotQuoteC), .cls isQuoteC]

/-- Pattern of the bare-word click rule. -/
def rxClickBare : Rx := rseq [
  rlit "click", .opt (rlit " on"), rlit " ", .opt (rlit "the "),
  .grp 1 (.rep1 isAlnumSp), rlit " ",
  .alt (rlit "button") (.alt (rlit "link") (rlit "element"))]

/-- The verb alternation shared by both type rules. -/
def rxTypeVerb : Rx :=
  .alt (rlit "type") (.alt (rlit "enter") (.alt (rlit "input") (rlit "fill in")))

/-- The preposition alternation shared by both type rules. -/
def rxTypePrep : Rx := .alt (rseq [rlit "in", .opt (rlit "to")]) (rlit "on")

/-- The optional field/input/box suffix shared by both type rules. -/
def rxTypeSuffix : Rx := .opt (.alt (rlit " field") (.alt (rlit " input") (rlit " box")))

/-- Pattern of the quoted-value type rule. -/
def rxTypeQuoted : Rx := rseq [
  rxTypeVerb, rlit " ", .cls isQuoteC, .grp 1 (.rep1 isNotQuoteC), .cls isQuoteC,
  rlit " ", rxTypePrep, rlit " ", .opt (rlit "the "),
  .grp 2 (.rep1 isAlnumSp), rxTypeSuffix]

/-- Pattern of the bare-word type rule. -/
def rxTypeBare : Rx := rseq [
  rxTypeVerb, rlit " ", .grp 1 (.rep1 isAlnumSp),
  rlit " ", rxTypePrep, rlit " ", .opt (rlit "the "),
  .grp 2 (.rep1 isAlnumSp), rxTypeSuffix]

/-- Pattern of the submit rule. -/
def rxSubmit : Rx := rseq [
  .alt (rlit "submit") (rlit "send"), .opt (rlit " the"), .opt (rlit " form")]

/-- Pattern of the numeric wait rule. -/
def rxWaitSeconds : Rx := rseq [
  rlit "wait ", .opt (rlit "for "), .grp 1 (.rep1 isDigitDot),
  rlit " second", .opt (rlit "s")]

/-- Pattern of the wait-for-element rule. -/
def rxWaitForElement : Rx := rseq [
  rlit "wait for", .opt (rlit " the"), rlit " ", .grp 1 (.rep1 isAlnumSp),
  .opt (.alt (rlit " to appear") (rlit " to load"))]

/-- Pattern of the screenshot rule. -/
def rxScreenshot : Rx := rseq [
  .opt (.alt (rlit "take a ") (.alt (rlit "capture ") (rlit "grab a "))),
  rlit "screenshot"]

/-- Pattern of the login rule. -/
def rxLogin : Rx := rseq [
  rlit "log", .opt (rlit "in"), .alt (rlit " to") (rlit " into"), rlit " ",
  .grp 1 rxDomainCore,
  .opt (rseq [rlit " with username ", .cls isQuoteC, .grp 2 (.rep1 isNotQuoteC),
    .cls isQuoteC, rlit " and password ", .cls isQuoteC, .grp 3 (.rep1 isNotQuoteC),
    .cls isQuoteC])]

/-- Pattern of the search rule. -/
def rxSearch : Rx := rseq [
  rlit "search ", .opt (rlit "for "), .cls isQuoteC, .grp 1 (.rep1 isNotQuoteC),
  .cls isQuoteC, rlit " ", .alt (rlit "on") (rlit "in"), rlit " ",
  .grp 2 rxDomainCore]

/-! ### Parameter extraction and parse_command -/

/-- A parameter value of a parsed command: string, number, or Python None. -/
inductive PVal where
  | pstr (v : String)
  | pnum (v : Rat)
  | pnull
deriving DecidableEq, Repr

/-- The parameter dictionary an extractor builds (keys in insertion order). -/
abbrev Params := List (String × PVal)

/-- `s.startswith(pre)`, computed on character lists. -/
def pyStartsWith (s pre : String) : Bool := pre.toList.isPrefixOf s.toList

/-- Integer value of a digit run. -/
def digitsVal (l : List Char) : Nat :=
  l.foldl (fun acc c => acc * 10 + (c.toNat - 48)) 0

/-- Python `float()` on a string drawn from the digits-and-dot class: defined
exactly when there is at least one digit and at most one dot (the value is
then exact, which coincides with the repository's use of it as a parameter
value; no arithmetic happens on it). -/
def pyFloat (s : String) : Option Rat :=
  let cs := s.toList
  if cs.all isDigitDot && cs.any Char.isDigit
      && (cs.filter (fun c => c = '.')).length ≤ 1 then
    match cs.span (fun c => c ≠ '.') with
    | (intPart, []) => some ((digitsVal intPart : Nat) : Rat)
    | (intPart, _ :: fracPart) =>
      some ((digitsVal intPart : Nat) + (digitsVal fracPart : Nat) / ((10 : Rat) ^ fracPart.length))
  else none

/-- Extractor of the navigate rule: prepend the secure scheme when the
captured URL does not already carry one (the capture starts after the
optional scheme group, so the guard mirrors the source lambda verbatim even
though it can only take its first branch). -/
def extrNavigate (caps : Caps) : Except Unit Params :=
  match capStr caps 1 with
  | some g1 =>
    .ok [("url", .pstr (if pyStartsWith g1 "http://" || pyStartsWith g1 "https://" then g1
      else "https://" ++ g1))]
  | none => .error ()

/-- Extractor shared by both click rules. -/
def extrClick (caps : Caps) : Except Unit Params :=
  match capStr caps 1 with
  | some g1 => .ok [("text", .pstr g1)]
  | none => .error ()

/-- Extractor shared by both type rules. -/
def extrType (caps : Caps) : Except Unit Params :=
  match capStr caps 1, capStr caps 2 with
  | some g1, some g2 => .ok [("text", .pstr g1), ("field", .pstr g2)]
  | _, _ => .error ()

/-- Extractor of the submit rule. -/
def extrSubmit (_ : Caps) : Except Unit Params := .ok []

/-- Extractor of the numeric wait rule; `.error` models `float()` raising
`ValueError` on a malformed capture such as `1.2.3`. -/
def extrWaitSeconds (caps : Caps) : Except Unit Params :=
  match capStr caps 1 with
  | some g1 =>
    match pyFloat g1 with
    | some q => .ok [("seconds", .pnum q)]
    | none => .error ()
  | none => .error ()

/-- Extractor of the wait-for-element rule. -/
def extrWaitForElement (caps : Caps) : Except Unit Params :=
  match capStr caps 1 with
  | some g1 => .ok [("element", .pstr g1)]
  | none => .error ()

/-- Extractor of the screenshot rule. -/
def extrScreenshot (_ : Caps) : Except Unit Params := .ok []

/-- Optional credential capture with Python truthiness: a missing or empty
group becomes None. -/
def credVal (caps : Caps) (n : Nat) : PVal :=
  match capStr caps n with
  | some v => if v ≠ "" then .pstr v else .pnull
  | none => .pnull

/-- Extractor of the login rule. -/
def extrLogin (caps : Caps) : Except Unit Params :=
  match capStr caps 1 with
  | some g1 =>
    .ok [("website", .pstr g1), ("username", credVal caps 2), ("password", credVal caps 3)]
  | none => .error ()

/-- Extractor of the search rule. -/
def extrSearch (caps : Caps) : Except Unit Params :=
  match capStr caps 1, capStr caps 2 with
  | some g1, some g2 => .ok [("query", .pstr g1), ("website", .pstr g2)]
  | _, _ => .error ()

/-- The ordered rule table of src/parser.py: (pattern, action, extractor),
in source order.  Matching tries the rules strictly in this order. -/
def COMMAND_PATTERNS : List (Rx × String × (Caps → Except Unit Params)) := [
  (rxNavigate, "navigate", extrNavigate),
  (rxClickQuoted, "click", extrClick),
  (rxClickBare, "click", extrClick),
  (rxTypeQuoted, "type", extrType),
  (rxTypeBare, "type", extrType),
  (rxSubmit, "submit", extrSubmit),
  (rxWaitSeconds, "wait", extrWaitSeconds),
  (rxWaitForElement, "wait_for_element", extrWaitForElement),
  (rxScreenshot, "screenshot", extrScreenshot),
  (rxLogin, "login", extrLogin),
  (rxSearch, "search", extrSearch)]

/-- How `parse_command` fails: the could-not-understand `ValueError` raised
when no pattern matches, or the `ValueError` a rule's extractor raises
(`float()` on a malformed seconds capture). -/
inductive ParseErr where
  | couldNotUnderstand (cmd : String)
  | extractorFailure
deriving DecidableEq, Repr

/-- Whitespace stripping on both ends, on the character list. -/
def stripList (cs : List Char) : List Char :=
  ((cs.dropWhile Char.isWhitespace).reverse.dropWhile Char.isWhitespace).reverse

/-- `command.strip().lower()` (ASCII lowering, which the command grammar and
the repository's inputs stay within). -/
def pyNormalize (command : String) : String :=
  String.mk ((stripList command.toList).map Char.toLower)

/-- Try the rules in order; the first whose pattern matches decides. -/
def runPatterns (cs : List Char) (cmd : String) :
    List (Rx × String × (Caps → Except Unit Params)) → Except ParseErr (String × Params)
  | [] => .error (.couldNotUnderstand cmd)
  | (rx, act, ext) :: rest =>
    match pymatch rx cs with
    | some caps =>
      match ext caps with
      | .ok ps => .ok (act, ps)
      | .error _ => .error .extractorFailure
    | none => runPatterns cs cmd rest

/-- `parse_command` of src/parser.py: normalize, then first-match-wins over
the ordered rule table. -/
def parse_command (command : String) : Except ParseErr (String × Params) :=
  let cmd := pyNormalize command
  runPatterns cmd.toList cmd COMMAND_PATTERNS

/-- The claim side of C6's full-match reading: a rule pattern matching the
whole normalized text, with nothing left over (what the spec calls matching
"the full normalized text from its start"; `parse_command` itself only
requires a prefix match, which is what C6 is about). -/
def pymatchFull (r : Rx) (cs : List Char) : Option Caps :=
  mrun r cs [] (fun rest caps => if rest = [] then some caps else none)

/-! ## The browser controller (src/browser.py)

Pages are oracle structures; every Playwright call site in the source has a
corresponding oracle application.  `Except String r` models a call that can
raise (the string is the `str()` of the raised exception). -/

/-- An element handle, distinguished only by identity. -/
structure Elem where
  handleId : Nat
deriving DecidableEq, Repr

/-- The Playwright page capability as the controller uses it.  `wfs` is
`page.wait_for_selector(selector, timeout)`; its `.ok none` case mirrors the
source's truthiness guards on returned handles, `.error` a raise (timeout
included).  `waitLoad` takes the load state and a call-site tag, so the
model can give the same wait different outcomes at different moments of the
run.  `urlProp` is the (non-raising) `page.url` property. -/
structure Page where
  wfs : String → Nat → Except String (Option Elem)
  getAttribute : Elem → String → Except String (Option String)
  querySelectorIn : Elem → String → Except String (Option Elem)
  querySelector : String → Except String (Option Elem)
  clickE : Elem → Except String Unit
  fillE : Elem → String → Except String Unit
  typeE : Elem → String → Nat → Except String Unit
  pressE : Elem → String → Except String Unit
  keyboardPress : String → Except String Unit
  waitLoad : String → Nat → Except String Unit
  contentGet : Except String String
  goto : String → Except String Unit
  urlProp : String
  titleGet : Except String String
  screenshotB64 : Except String String

/-- The error taxonomy of src/error_handler.py as the subtype tag of a
raised `BrowserAutomationError`; `base` is the base class itself. -/
inductive BAKind where
  | base
  | elementNotFound
  | navigation
  | timeoutE
  | authentication
  | invalidCommand
  | browserInit
deriving DecidableEq, Repr

/-- A raised `BrowserAutomationError`: its subtype and its message.
`except BrowserAutomationError` catches every `BAErr` whatever its kind. -/
structure BAErr where
  kind : BAKind
  msg : String
deriving DecidableEq, Repr

/-- Any Python exception as seen by a broad `except Exception` handler:
either a taxonomy error or a host-level exception with its `str()`. -/
inductive PyErr where
  | ba (e : BAErr)
  | host (msg : String)
deriving DecidableEq, Repr

/-- Python `str(e)` of a caught exception. -/
def pyStr : PyErr → String
  | .ba e => e.msg
  | .host m => m

instance {ε α : Type} [DecidableEq ε] [DecidableEq α] : DecidableEq (Except ε α) :=
  fun a b =>
    match a, b with
    | .ok x, .ok y =>
      if h : x = y then .isTrue (by rw [h]) else .isFalse (fun hh => h (Except.ok.inj hh))
    | .error x, .error y =>
      if h : x = y then .isTrue (by rw [h]) else .isFalse (fun hh => h (Except.error.inj hh))
    | .ok _, .error _ => .isFalse (fun hh => Except.noConfusion hh)
    | .error _, .ok _ => .isFalse (fun hh => Except.noConfusion hh)

/-- A value in a handler's result dictionary. -/
inductive RVal where
  | rstr (s : String)
  | rbool (v : Bool)
  | rnum (v : Rat)
deriving DecidableEq, Repr

/-- A handler's result dictionary, keys in insertion order. -/
abbrev RDict := List (String × RVal)

/-! ### _find_element (src/browser.py lines 159-246)

The function is instrumented with the list of `(selector, timeout)` pairs it
passes to `wait_for_selector`, in call order, so the per-strategy timeouts
are part of the observable result (claim C3 is about them). -/

/-- The `text='…'` selector of the first strategy (also used by `_login`). -/
def textSelector (identifier : String) : String := "text='" ++ identifier ++ "'"

/-- The placeholder-substring selector of the second strategy. -/
def placeholderSelector (identifier : String) : String :=
  "[placeholder*='" ++ identifier ++ "' i]"

/-- The label selector of the third strategy. -/
def labelSelector (identifier : String) : String :=
  "label:has-text('" ++ identifier ++ "')"

/-- The fixed common-selector probe list of the fourth phase, in order. -/
def commonSelectors (identifier : String) : List String := [
  "input[name*='" ++ identifier ++ "' i]",
  "input[id*='" ++ identifier ++ "' i]",
  "input[aria-label*='" ++ identifier ++ "' i]",
  "textarea[name*='" ++ identifier ++ "' i]",
  "textarea[id*='" ++ identifier ++ "' i]",
  "textarea[aria-label*='" ++ identifier ++ "' i]",
  "button:has-text('" ++ identifier ++ "')",
  "a:has-text('" ++ identifier ++ "')"]

/-- The `ElementNotFoundError` raised when every strategy has failed. -/
def notFoundErr (identifier : String) : BAErr :=
  ⟨.elementNotFound, "Could not find element: " ++ identifier⟩

/-- The common-selector loop: each probe waits 1000 ms, any failure falls
through to the next probe, exhaustion raises `ElementNotFoundError`. -/
def commonLoop (p : Page) (identifier : String) :
    List String → List (String × Nat) → Except BAErr Elem × List (String × Nat)
  | [], tr => (.error (notFoundErr identifier), tr)
  | s :: rest, tr =>
    match p.wfs s 1000 with
    | .ok (some e) => (.ok e, tr ++ [(s, 1000)])
    | _ => commonLoop p identifier rest (tr ++ [(s, 1000)])

/-- The tail of the label strategy once no usable `for` association decided:
a nested `input` control if present, else the label element itself; an
exception in the nested query aborts the whole label strategy and falls to
the common selectors. -/
def labelFallback (p : Page) (identifier : String) (lab : Elem)
    (tr : List (String × Nat)) : Except BAErr Elem × List (String × Nat) :=
  match p.querySelectorIn lab "input" with
  | .error _ => commonLoop p identifier (commonSelectors identifier) tr
  | .ok (some inner) => (.ok inner, tr)
  | .ok none => (.ok lab, tr)

/-- The interior of the label strategy once a label was found: read its
`for` attribute (an exception there aborts the strategy, to the common
selectors); a truthy value commits to the `#id` lookup — a hit returns it,
a raise falls to the common selectors (the strategy's `except` skips the
remaining fallbacks), a returned non-handle still reaches them; a falsy or
absent value goes straight to the nested-control/label-itself fallback. -/
def labelPhase (p : Page) (identifier : String) (lab : Elem)
    (tr : List (String × Nat)) : Except BAErr Elem × List (String × Nat) :=
  match p.getAttribute lab "for" with
  | .error _ => commonLoop p identifier (commonSelectors identifier) tr
  | .ok (some lf) =>
    if lf ≠ "" then
      match p.wfs ("#" ++ lf) 1000 with
      | .ok (some ie) => (.ok ie, tr ++ [("#" ++ lf, 1000)])
      | .ok none => labelFallback p identifier lab (tr ++ [("#" ++ lf, 1000)])
      | .error _ =>
        commonLoop p identifier (commonSelectors identifier) (tr ++ [("#" ++ lf, 1000)])
    else labelFallback p identifier lab tr
  | .ok none => labelFallback p identifier lab tr

/-- `_find_element`: text match, placeholder match, label resolution, then
the common selectors, each strategy swallowing its own failure.  Returns
the result together with the issued `(selector, timeout)` calls. -/
def find_element (p : Page) (identifier : String) (timeout : Nat) :
    Except BAErr Elem × List (String × Nat) :=
  let tr1 := [(textSelector identifier, timeout)]
  match p.wfs (textSelector identifier) timeout with
  | .ok (some e) => (.ok e, tr1)
  | _ =>
    let tr2 := tr1 ++ [(placeholderSelector identifier, timeout)]
    match p.wfs (placeholderSelector identifier) timeout with
    | .ok (some e) => (.ok e, tr2)
    | _ =>
      let tr3 := tr2 ++ [(labelSelector identifier, timeout)]
      match p.wfs (labelSelector identifier) timeout with
      | .ok (some lab) => labelPhase p identifier lab tr3
      | _ => commonLoop p identifier (commonSelectors identifier) tr3

/-! ### The action handlers (src/browser.py lines 139-463) -/

/-- `_navigate`: prepend the secure scheme if missing, go to the URL, wait
for network idle, report URL and title; any failure raises
`NavigationError`.  (`page.url` at line 153 is a property access,
modelled by `urlProp`; `title()` may raise.) -/
def navigate_action (p : Page) (url : String) : Except BAErr RDict :=
  let u := if pyStartsWith url "http://" || pyStartsWith url "https://" then url
    else "https://" ++ url
  match p.goto u with
  | .error m => .error ⟨.navigation, "Failed to navigate to " ++ u ++ ": " ++ m⟩
  | .ok _ =>
    match p.waitLoad "networkidle" 0 with
    | .error m => .error ⟨.navigation, "Failed to navigate to " ++ u ++ ": " ++ m⟩
    | .ok _ =>
      match p.titleGet with
      | .error m => .error ⟨.navigation, "Failed to navigate to " ++ u ++ ": " ++ m⟩
      | .ok t => .ok [("url", .rstr p.urlProp), ("title", .rstr t)]

/-- `_click`: resolve by text (5000 ms budget), click; `ElementNotFoundError`
passes through, any other failure is wrapped generically. -/
def click_action (p : Page) (text : String) : Except BAErr RDict :=
  match (find_element p text 5000).1 with
  | .error e => .error e
  | .ok el =>
    match p.clickE el with
    | .error m => .error ⟨.base, "Failed to click on '" ++ text ++ "': " ++ m⟩
    | .ok _ => .ok [("clicked", .rstr text)]

/-- `_type`: resolve the field (5000 ms budget), clear it, type with a 50 ms
per-character delay; `ElementNotFoundError` passes through, any other
failure is wrapped generically. -/
def type_action (p : Page) (text field : String) : Except BAErr RDict :=
  match (find_element p field 5000).1 with
  | .error e => .error e
  | .ok el =>
    match p.fillE el "" with
    | .error m => .error ⟨.base, "Failed to type in field '" ++ field ++ "': " ++ m⟩
    | .ok _ =>
      match p.typeE el text 50 with
      | .error m => .error ⟨.base, "Failed to type in field '" ++ field ++ "': " ++ m⟩
      | .ok _ => .ok [("field", .rstr field), ("typed", .rstr text)]

/-- The ordered submit-button selector list of `_submit`. -/
def submitSelectors : List String := [
  "input[type='submit']",
  "button[type='submit']",
  "button:has-text('Submit')",
  "button:has-text('Login')",
  "button:has-text('Sign in')",
  "button:has-text('Search')",
  "button:has-text('Send')"]

/-- The generic submit error with the caught exception's text appended. -/
def submitErr (m : String) : BAErr := ⟨.base, "Failed to submit form: " ++ m⟩

/-- The per-selector loop of `_submit`: wait 1000 ms for the selector, click
it, wait for network idle, return success; any failure in the iteration is
swallowed and the loop continues.  The Boolean records whether a click was
delivered (a successful click whose network-idle wait then failed still
happened, and the loop moves on regardless).  The `Nat` is the selector's
index, tagging its network-idle call site. -/
def submitButtonLoop (p : Page) (sent : Bool) :
    List (Nat × String) → Option RDict × Bool
  | [] => (none, sent)
  | (i, sel) :: rest =>
    match p.wfs sel 1000 with
    | .ok (some btn) =>
      match p.clickE btn with
      | .error _ => submitButtonLoop p sent rest
      | .ok _ =>
        match p.waitLoad "networkidle" (10 + i) with
        | .error _ => submitButtonLoop p true rest
        | .ok _ => (some [("submitted", .rbool true)], true)
    | _ => submitButtonLoop p sent rest

/-- `_submit`: try every submit-button selector; on exhaustion press Enter
on an enclosing form if one exists, else on the keyboard focus; each Enter
path waits for network idle before reporting success, and a failure there
(or in the form query or press) escapes as a generic
`BrowserAutomationError`.  The Boolean reports whether any click or
key-press was delivered during the call. -/
def submit_action (p : Page) : Except BAErr RDict × Bool :=
  match submitButtonLoop p false submitSelectors.enum with
  | (some r, sent) => (.ok r, sent)
  | (none, sent) =>
    match p.querySelector "form" with
    | .error m => (.error (submitErr m), sent)
    | .ok (some f) =>
      match p.pressE f "Enter" with
      | .error m => (.error (submitErr m), sent)
      | .ok _ =>
        match p.waitLoad "networkidle" 20 with
        | .error m => (.error (submitErr m), true)
        | .ok _ => (.ok [("submitted", .rbool true)], true)
    | .ok none =>
      match p.keyboardPress "Enter" with
      | .error m => (.error (submitErr m), sent)
      | .ok _ =>
        match p.waitLoad "networkidle" 21 with
        | .error m => (.error (submitErr m), true)
        | .ok _ => (.ok [("submitted", .rbool true)], true)

/-- `_wait`: a pure suspension (`asyncio.sleep` cannot fail in this model,
where cancellation is out of scope), reporting the requested seconds. -/
def wait_action (seconds : Rat) : Except BAErr RDict :=
  .ok [("waited", .rnum seconds)]

/-- `_wait_for_element`: delegate to resolution with a 30000 ms budget and
re-signal a resolution failure as `TimeoutError`. -/
def wait_for_element_action (p : Page) (element : String) : Except BAErr RDict :=
  match (find_element p element 30000).1 with
  | .error _ => .error ⟨.timeoutE, "Timed out waiting for element: " ++ element⟩
  | .ok _ => .ok [("waited_for", .rstr element)]

/-- `_screenshot`: capture and base64-encode (the oracle yields the encoded
payload directly); failure is wrapped generically. -/
def screenshot_action (p : Page) : Except BAErr RDict :=
  match p.screenshotB64 with
  | .error m => .error ⟨.base, "Failed to take screenshot: " ++ m⟩
  | .ok b => .ok [("screenshot", .rstr b), ("format", .rstr "base64")]

/-- The login entry-point texts `_login` probes, in order. -/
def loginButtons : List String := [
  "Log in", "Login", "Sign in", "Signin", "Sign In", "Account", "My Account"]

/-- The username-field identifiers `_login` tries, in order. -/
def usernameFields : List String := ["username", "email", "user", "login"]

/-- The password-field identifiers `_login` tries, in order. -/
def passwordFields : List String := ["password", "pass"]

/-- The search-field identifiers `_search` tries, in order. -/
def searchFields : List String := ["search", "q", "query", "find"]

/-- The direct search-box probe `_search` falls back to. -/
def genericSearchSelector : String :=
  "input[type='search'], input[placeholder*='search' i], input[aria-label*='search' i]"

/-- The login-button loop of `_login`: wait 2000 ms for each entry-point
text, click the first hit and wait for the page to settle; every failure is
swallowed and the loop moves on.  Returns which text was clicked, if any
(the source discards this too: the click is for its page effect, which a
stateless page model does not track). -/
def clickFirstLoginButton (p : Page) : List String → Option String
  | [] => none
  | bt :: rest =>
    match p.wfs (textSelector bt) 2000 with
    | .ok (some b) =>
      match p.clickE b with
      | .error _ => clickFirstLoginButton p rest
      | .ok _ =>
        match p.waitLoad "networkidle" 30 with
        | .error _ => clickFirstLoginButton p rest
        | .ok _ => some bt
    | _ => clickFirstLoginButton p rest

/-- The field-filling loop shared by `_login` and `_search`: `_type` the
value into the first identifier that resolves, swallowing every failure
(typed errors included); reports whether any attempt succeeded. -/
def fillFirst (p : Page) (value : String) : List String → Bool
  | [] => false
  | f :: rest =>
    match type_action p value f with
    | .ok _ => true
    | .error _ => fillFirst p value rest

/-- The `str()` of the `TypeError` raised by `await self.page.url()` in
`_login` and `_search` (lines 411 and 459): `page.url` is a string property,
so calling it raises before any await. -/
def pageUrlCallErr : String := "'str' object is not callable"

/-- The body of `_login` inside its `try`: navigate, probe login buttons,
fill credentials if both were supplied (Python truthiness: a missing or
empty string counts as absent), submit, then build the result dictionary —
whose `current_url` entry calls the `page.url` property and therefore
raises a host `TypeError`. -/
def login_body (p : Page) (website : String) (username password : Option String) :
    Except PyErr RDict :=
  match navigate_action p website with
  | .error e => .error (.ba e)
  | .ok _ =>
    let _ := clickFirstLoginButton p loginButtons
    match username, password with
    | some u, some pw =>
      if u ≠ "" ∧ pw ≠ "" then
        if fillFirst p u usernameFields = false then
          .error (.ba ⟨.elementNotFound, "Could not find username field"⟩)
        else if fillFirst p pw passwordFields = false then
          .error (.ba ⟨.elementNotFound, "Could not find password field"⟩)
        else
          match (submit_action p).1 with
          | .error e => .error (.ba e)
          | .ok _ => .error (.host pageUrlCallErr)
      else .error (.host pageUrlCallErr)
    | _, _ => .error (.host pageUrlCallErr)

/-- `_login`: the body above under `except Exception`, which re-wraps every
failure — taxonomy errors included — into a plain base
`BrowserAutomationError`. -/
def login_action (p : Page) (website : String) (username password : Option String) :
    Except BAErr RDict :=
  match login_body p website username password with
  | .ok r => .ok r
  | .error e => .error ⟨.base, "Failed to login to " ++ website ++ ": " ++ pyStr e⟩

/-- The steps of `_search` after a search box was filled: submit, wait for
network idle, then build the result dictionary — whose `current_url` entry
raises the host `TypeError` of `await self.page.url()`. -/
def search_after_fill (p : Page) : Except PyErr RDict :=
  match (submit_action p).1 with
  | .error e => .error (.ba e)
  | .ok _ =>
    match p.waitLoad "networkidle" 40 with
    | .error m => .error (.host m)
    | .ok _ => .error (.host pageUrlCallErr)

/-- The body of `_search` inside its `try`: navigate, try the search-field
identifiers, then the direct search-box probe (whose raise propagates, and
whose falsy return leaves the field unfilled), then
`ElementNotFoundError` if still unfilled, then submit. -/
def search_body (p : Page) (query website : String) : Except PyErr RDict :=
  match navigate_action p website with
  | .error e => .error (.ba e)
  | .ok _ =>
    if fillFirst p query searchFields then search_after_fill p
    else
      match p.wfs genericSearchSelector 5000 with
      | .error m => .error (.host m)
      | .ok (some box) =>
        match p.fillE box "" with
        | .error m => .error (.host m)
        | .ok _ =>
          match p.typeE box query 50 with
          | .error m => .error (.host m)
          | .ok _ => search_after_fill p
      | .ok none => .error (.ba ⟨.elementNotFound, "Could not find search field"⟩)

/-- `_search`: the body above under `except Exception`, which re-wraps every
failure — taxonomy errors included — into a plain base
`BrowserAutomationError`. -/
def search_action (p : Page) (query website : String) : Except BAErr RDict :=
  match search_body p query website with
  | .ok r => .ok r
  | .error e =>
    .error ⟨.base, "Failed to search for '" ++ query ++ "' on " ++ website ++ ": " ++ pyStr e⟩

/-- The parameters an action handler is invoked with (`**parameters`). -/
inductive ActionParams where
  | navigateP (url : String)
  | clickP (text : String)
  | typeP (text field : String)
  | submitPs
  | waitP (seconds : Rat)
  | waitForElementP (element : String)
  | screenshotPs
  | loginP (website : String) (username password : Option String)
  | searchP (query website : String)

/-- The keys of the dispatcher's action map, in source order. -/
def actionNames : List String := [
  "navigate", "click", "type", "submit", "wait", "wait_for_element",
  "screenshot", "login", "search"]

/-- `execute` of src/browser.py: unknown actions raise the base error before
the dispatch `try`; inside it, a `BrowserAutomationError` from a handler is
re-raised unchanged, and only a non-taxonomy failure (a keyword-argument
mismatch between action and parameters, a host `TypeError`) is wrapped
generically with the action name. -/
def execute (p : Page) (action : String) (params : ActionParams) : Except BAErr RDict :=
  if action ∈ actionNames then
    match action, params with
    | "navigate", .navigateP url => navigate_action p url
    | "click", .clickP t => click_action p t
    | "type", .typeP t f => type_action p t f
    | "submit", .submitPs => (submit_action p).1
    | "wait", .waitP s => wait_action s
    | "wait_for_element", .waitForElementP e => wait_for_element_action p e
    | "screenshot", .screenshotPs => screenshot_action p
    | "login", .loginP w u pw => login_action p w u pw
    | "search", .searchP q w => search_action p q w
    | _, _ => .error ⟨.base, "Failed to execute " ++ action ++ ": TypeError"⟩
  else .error ⟨.base, "Unknown action: " ++ action⟩

/-! ## The CAPTCHA handler (src/captcha_handler.py) -/

/-- Contiguous-sublist check on character lists. -/
def pyInAux (needle : List Char) : List Char → Bool
  | [] => needle.isEmpty
  | c :: rest => needle.isPrefixOf (c :: rest) || pyInAux needle rest

/-- Python's substring containment `needle in hay`. -/
def pyIn (needle hay : String) : Bool := pyInAux needle.toList hay.toList

/-- ASCII lowering of a string, on the character list (Python `.lower()` on
the repository's ASCII selector and page text). -/
def pyLower (s : String) : String := String.mk (s.toList.map Char.toLower)

/-- The fixed structural selector list, in source order. -/
def CAPTCHA_SELECTORS : List String := [
  "iframe[src*='recaptcha']",
  "iframe[title*='recaptcha']",
  ".g-recaptcha",
  "div[data-sitekey]",
  "iframe[src*='hcaptcha']",
  ".h-captcha",
  "img[alt*='captcha' i]",
  "input[name*='captcha' i]",
  "div[class*='captcha' i]",
  "label:has-text('I am not a robot')",
  "div:has-text('Verify you are human')"]

/-- The fixed text-pattern list of the full-page fallback scan. -/
def CAPTCHA_TEXT_PATTERNS : List String := [
  "captcha",
  "i am not a robot",
  "verify you are human",
  "security check",
  "prove you're human",
  "human verification"]

/-- Kind classification from the matching selector's own lowercased text
(lines 83-91). -/
def classifyCaptcha (selector : String) : String :=
  let st := pyLower selector
  if pyIn "recaptcha" st then "recaptcha"
  else if pyIn "hcaptcha" st then "hcaptcha"
  else if pyIn "captcha" st then "text_captcha"
  else "unknown"

/-- The structural probe loop of `detect_captcha`: the first selector whose
query returns an element decides; a raising query propagates (to be
swallowed by the surrounding `except`). -/
def detectLoop (p : Page) : List String → Except String (Option (String × Elem))
  | [] => .ok none
  | sel :: rest =>
    match p.querySelector sel with
    | .error m => .error m
    | .ok (some e) => .ok (some (classifyCaptcha sel, e))
    | .ok none => detectLoop p rest

/-- `detect_captcha`: structural probes first, then the full-page text scan;
any exception anywhere is swallowed into `(False, None, None)`, the same
triple as genuine absence. -/
def detect_captcha (p : Page) : Bool × Option String × Option Elem :=
  match detectLoop p CAPTCHA_SELECTORS with
  | .error _ => (false, none, none)
  | .ok (some (k, e)) => (true, some k, some e)
  | .ok none =>
    match p.contentGet with
    | .error _ => (false, none, none)
    | .ok txt =>
      match CAPTCHA_TEXT_PATTERNS.find? (fun pat => pyIn pat (pyLower txt)) with
      | some _ => (true, some "unknown", none)
      | none => (false, none, none)

/-- The fixed ceiling of the manual-intervention loop (`wait_time = 30`). -/
def wait_time : Nat := 30

/-- The polling loop of `_manual_intervention`: at poll index `i` with the
given fuel remaining, call `detect_captcha` on the page as it stands at
second `i`; absence returns success at once.  Returns the outcome and how
many polls were made in total. -/
def manualPollLoop (pages : Nat → Page) : Nat → Nat → Bool × Nat
  | i, 0 => (false, i)
  | i, fuel + 1 =>
    if (detect_captcha (pages i)).1 = false then (true, i + 1)
    else manualPollLoop pages (i + 1) fuel

/-- `_manual_intervention`: capture a screenshot (a failure there is caught
by the surrounding `except` and returns failure with no polls), then poll
detection once per second up to the ceiling.  `pages i` is the page as it
stands at the `i`-th poll, so a CAPTCHA the operator clears mid-loop is a
change of `pages`. -/
def manual_intervention (shot : Except String Unit) (pages : Nat → Page) : Bool × Nat :=
  match shot with
  | .error _ => (false, 0)
  | .ok _ => manualPollLoop pages 0 wait_time

/-! ## Claim-side definitions

`resolveSpecOrder` renders claim C2's words (the strategy chain with the
full label fallback sequence) for comparison with `find_element`;
`findChainAmended` renders the amended chain that the code actually
implements, as the right-hand side of C2's characterization theorem. -/

/-- The head of an `Except String (Option Elem)` probe viewed as the claims
view it: an element on a hit, `none` on any kind of failure. -/
def probeHit (r : Except String (Option Elem)) : Option Elem :=
  match r with
  | .ok (some e) => some e
  | _ => none

/-- First-match choice between resolution strategies. -/
def oElse (a : Option Elem) (b : Unit → Option Elem) : Option Elem :=
  match a with
  | some e => some e
  | none => b ()

/-- A chain outcome as `_find_element` reports it: the matched element, or
`ElementNotFoundError` carrying the identifier when the chain is spent. -/
def chainToResult (o : Option Elem) (identifier : String) : Except BAErr Elem :=
  match o with
  | some e => .ok e
  | none => .error (notFoundErr identifier)

/-- First hit among the common selectors (1000 ms probes), claims view. -/
def firstCommonHit (p : Page) : List String → Option Elem
  | [] => none
  | s :: rest =>
    match p.wfs s 1000 with
    | .ok (some e) => some e
    | _ => firstCommonHit p rest

/-- C2's claimed resolution order: text, placeholder, label with the full
`for`-association / nested-control / label-itself fallback chain, then the
common selectors; the first rule that matches wins. -/
def resolveSpecOrder (p : Page) (identifier : String) (timeout : Nat) : Option Elem :=
  oElse (probeHit (p.wfs (textSelector identifier) timeout)) fun _ =>
  oElse (probeHit (p.wfs (placeholderSelector identifier) timeout)) fun _ =>
  oElse (match p.wfs (labelSelector identifier) timeout with
    | .ok (some lab) =>
      oElse (match p.getAttribute lab "for" with
        | .ok (some lf) =>
          if lf ≠ "" then probeHit (p.wfs ("#" ++ lf) 1000) else none
        | _ => none) fun _ =>
      oElse (match p.querySelectorIn lab "input" with
        | .ok (some inner) => some inner
        | _ => none) fun _ =>
      some lab
    | _ => none) fun _ =>
  firstCommonHit p (commonSelectors identifier)

/-- The label strategy's fallback tail, claims view: nested control if
present, else the label itself; an exception aborts (falls to commons). -/
def labelFallbackChain (p : Page) (lab : Elem) : Option Elem :=
  match p.querySelectorIn lab "input" with
  | .error _ => none
  | .ok (some inner) => some inner
  | .ok none => some lab

/-- The label strategy as the amended C2 states it: a truthy `for`
attribute commits — when its target lookup raises, the nested-control and
label-itself fallbacks are skipped (`none` drops to the common selectors);
when it merely returns no handle, they still run — and an exception while
reading the attribute likewise drops to the common selectors. -/
def labelPhaseChain (p : Page) (lab : Elem) : Option Elem :=
  match p.getAttribute lab "for" with
  | .error _ => none
  | .ok (some lf) =>
    if lf ≠ "" then
      match p.wfs ("#" ++ lf) 1000 with
      | .ok (some ie) => some ie
      | .ok none => labelFallbackChain p lab
      | .error _ => none
    else labelFallbackChain p lab
  | .ok none => labelFallbackChain p lab

/-- The chain `find_element` actually implements, as the amended C2 states
it: text, placeholder, then the label strategy with its committing `for`
association, then the common selectors; the first rule that matches wins
and exhaustion means failure. -/
def findChainAmended (p : Page) (identifier : String) (timeout : Nat) : Option Elem :=
  oElse (probeHit (p.wfs (textSelector identifier) timeout)) fun _ =>
  oElse (probeHit (p.wfs (placeholderSelector identifier) timeout)) fun _ =>
  oElse (match p.wfs (labelSelector identifier) timeout with
    | .ok (some lab) => labelPhaseChain p lab
    | _ => none) fun _ =>
  firstCommonHit p (commonSelectors identifier)

/-! ## Concrete pages for counterexamples and witnesses -/

/-- A page on which every selector wait times out and everything else
succeeds trivially. -/
def allFailPage : Page where
  wfs := fun _ _ => .error "Timeout 5000ms exceeded"
  getAttribute := fun _ _ => .ok none
  querySelectorIn := fun _ _ => .ok none
  querySelector := fun _ => .ok none
  clickE := fun _ => .ok ()
  fillE := fun _ _ => .ok ()
  typeE := fun _ _ _ => .ok ()
  pressE := fun _ _ => .ok ()
  keyboardPress := fun _ => .ok ()
  waitLoad := fun _ _ => .ok ()
  contentGet := .ok ""
  goto := fun _ => .ok ()
  urlProp := "https://github.com/"
  titleGet := .ok "GitHub"
  screenshotB64 := .ok "img"

/-- A page with a label for `username` that carries `for="uid"`, no element
with id `uid` (that wait raises), and an `input` nested inside the label;
every other wait times out. -/
def labelCommitPage : Page :=
  { allFailPage with
    wfs := fun s _ =>
      if s = labelSelector "username" then .ok (some ⟨1⟩)
      else .error "Timeout 5000ms exceeded",
    getAttribute := fun e a =>
      if e.handleId = 1 && a = "for" then .ok (some "uid") else .ok none,
    querySelectorIn := fun e s =>
      if e.handleId = 1 && s = "input" then .ok (some ⟨2⟩) else .ok none }

/-- A page with no submit button, an enclosing form whose Enter press is
delivered, and a network-idle wait that then times out. -/
def submitEnterFailPage : Page :=
  { allFailPage with
    querySelector := fun s => if s = "form" then .ok (some ⟨3⟩) else .ok none,
    waitLoad := fun _ tag =>
      if tag = 20 then .error "Timeout 30000ms exceeded waiting for networkidle"
      else .ok () }

/-- A page whose generic search-box probe returns no handle while every
other wait times out. -/
def searchNoBoxPage : Page :=
  { allFailPage with
    wfs := fun s _ =>
      if s = genericSearchSelector then .ok none
      else .error "Timeout 5000ms exceeded" }

/-- A page whose recaptcha-iframe structural selector hits (and whose text
holds no CAPTCHA phrase). -/
def capHitPage : Page :=
  { allFailPage with
    querySelector := fun s =>
      if s = "iframe[src*='recaptcha']" then .ok (some ⟨1⟩) else .ok none,
    contentGet := .ok "a perfectly ordinary page" }

/-- A page with no structural hit whose text contains a CAPTCHA phrase. -/
def capTextPage : Page :=
  { allFailPage with
    contentGet := .ok "Please Verify you are human before continuing" }

/-- A page with no structural hit and no CAPTCHA phrase in its text. -/
def capAbsentPage : Page :=
  { allFailPage with contentGet := .ok "hello" }

/-- A page whose first structural probe raises. -/
def capErrPage : Page :=
  { allFailPage with
    querySelector := fun s =>
      if s = "iframe[src*='recaptcha']" then .error "Execution context was destroyed"
      else .ok none,
    contentGet := .ok "hello" }

/-- A page with no structural hit whose content read raises. -/
def capContentErrPage : Page :=
  { allFailPage with contentGet := .error "Navigation interrupted the content read" }

/-- The page timeline of the C9 witness: the CAPTCHA is present for the
first nine polls and gone at the tenth. -/
def fadePages (i : Nat) : Page := if i < 9 then capHitPage else capAbsentPage

/-! ## Theorems -/

/-- The could-not-understand failure of the rule loop characterizes exactly
the rule lists none of whose patterns matches a prefix of the text. -/
theorem runPatterns_couldNot_iff (cs : List Char) (cmd : String)
    (l : List (Rx × String × (Caps → Except Unit Params))) :
    runPatterns cs cmd l = .error (.couldNotUnderstand cmd) ↔
      l.all (fun e => (pymatch e.1 cs).isNone) = true := by
  induction l with
  | nil => simp [runPatterns]
  | cons e rest ih =>
    obtain ⟨rx, act, ext⟩ := e
    simp only [runPatterns, List.all_cons, Bool.and_eq_true]
    cases h : pymatch rx cs with
    | some caps =>
      cases hx : ext caps with
      | ok ps => simp [h, hx]
      | error u => simp [h, hx]
    | none => simp [h, ih]

/-- C1 (corrected).  The quoted-value type rule does win on
`type "hello world" into the search field`, but its greedy field capture
absorbs the trailing word `field`: the parameters are
`{text: "hello world", field: "search field"}`, not `{field: "search"}`. -/
theorem C1_counterexample :
    (parse_command "type \"hello world\" into the search field").toOption ≠
      some ("type", [("text", PVal.pstr "hello world"), ("field", PVal.pstr "search")]) := by
  decide

/-- C1 as amended: in the ordered rule table the quoted-value type rule (at
index 3) precedes its bare-word counterpart (at index 4); on the input
`type "hello world" into the search field` none of the three earlier rules
matches, so first-match-wins selects the quoted rule, whose extraction
yields `{text: "hello world", field: "search field"}` — the greedy
field capture keeps the word `field`. -/
theorem C1_amended :
    COMMAND_PATTERNS[3]? = some (rxTypeQuoted, "type", extrType) ∧
    COMMAND_PATTERNS[4]? = some (rxTypeBare, "type", extrType) ∧
    pymatch rxNavigate (pyNormalize "type \"hello world\" into the search field").toList = none ∧
    pymatch rxClickQuoted (pyNormalize "type \"hello world\" into the search field").toList = none ∧
    pymatch rxClickBare (pyNormalize "type \"hello world\" into the search field").toList = none ∧
    parse_command "type \"hello world\" into the search field" =
      .ok ("type", [("text", PVal.pstr "hello world"), ("field", PVal.pstr "search field")]) :=
  ⟨rfl, rfl, rfl, rfl, rfl, rfl⟩

/-- C6 (corrected).  `parse_command` accepts `submit everything now`
although no rule's pattern matches that full normalized text: matching only
ever anchors at the start and ignores trailing text, so the claimed
rejection of partially-matching inputs does not happen. -/
theorem C6_counterexample :
    COMMAND_PATTERNS.all
        (fun e => (pymatchFull e.1 (pyNormalize "submit everything now").toList).isNone) = true ∧
    parse_command "submit everything now" = .ok ("submit", []) :=
  ⟨by decide, rfl⟩

/-- C6 as amended: `parse_command` raises its could-not-understand
`ValueError` exactly when no rule's pattern matches a prefix of the
normalized text from its start; an input whose prefix matches a rule parses
successfully with the rest of the text ignored.  (The failure is a plain
`ValueError` — the `InvalidCommandError` class exists but is never raised —
and a matched wait rule whose numeric capture `float()` rejects fails with
a different, extractor error.) -/
theorem C6_amended (s : String) :
    parse_command s = .error (.couldNotUnderstand (pyNormalize s)) ↔
      COMMAND_PATTERNS.all (fun e => (pymatch e.1 (pyNormalize s).toList).isNone) = true :=
  runPatterns_couldNot_iff (pyNormalize s).toList (pyNormalize s) COMMAND_PATTERNS

/-- C7 (code bug).  Parsing `Click on "Sign In"` fails with the
could-not-understand `ValueError`: after normalization the quoted-click
rule still requires the literal word button, link or element before the
quoted text, and no other rule applies — although the repository's own
example list presents this command as supported and the spec says it parses
to a click on `Sign In`. -/
theorem C7_failing_eval :
    parse_command "Click on \"Sign In\"" =
      .error (.couldNotUnderstand "click on \"sign in\"") := rfl

/-- The structural loop returns the classification of the first selector
that yields an element, when every earlier probe returned no element. -/
theorem detectLoop_hit (p : Page) :
    ∀ (l : List String) (i : Nat) (sel : String) (e : Elem),
      l[i]? = some sel →
      (∀ s ∈ l.take i, p.querySelector s = .ok none) →
      p.querySelector sel = .ok (some e) →
      detectLoop p l = .ok (some (classifyCaptcha sel, e)) := by
  intro l
  induction l with
  | nil => intro i sel e hsel; simp at hsel
  | cons s rest ih =>
    intro i sel e hsel hprev hhit
    cases i with
    | zero =>
      simp only [List.getElem?_cons_zero, Option.some.injEq] at hsel
      subst hsel
      simp [detectLoop, hhit]
    | succ j =>
      simp only [List.getElem?_cons_succ] at hsel
      have hs : p.querySelector s = .ok none := by
        apply hprev
        simp [List.take_succ_cons]
      simp only [detectLoop, hs]
      exact ih j sel e hsel (fun t ht => hprev t (by simp [List.take_succ_cons, ht])) hhit

/-- The structural loop propagates the first raise, when every earlier
probe returned no element. -/
theorem detectLoop_err (p : Page) :
    ∀ (l : List String) (i : Nat) (sel m : String),
      l[i]? = some sel →
      (∀ s ∈ l.take i, p.querySelector s = .ok none) →
      p.querySelector sel = .error m →
      detectLoop p l = .error m := by
  intro l
  induction l with
  | nil => intro i sel m hsel; simp at hsel
  | cons s rest ih =>
    intro i sel m hsel hprev herr
    cases i with
    | zero =>
      simp only [List.getElem?_cons_zero, Option.some.injEq] at hsel
      subst hsel
      simp [detectLoop, herr]
    | succ j =>
      simp only [List.getElem?_cons_succ] at hsel
      have hs : p.querySelector s = .ok none := by
        apply hprev
        simp [List.take_succ_cons]
      simp only [detectLoop, hs]
      exact ih j sel m hsel (fun t ht => hprev t (by simp [List.take_succ_cons, ht])) herr

/-- The structural loop reports no hit when every probe returns no element. -/
theorem detectLoop_allNone (p : Page) :
    ∀ l : List String, (∀ s ∈ l, p.querySelector s = .ok none) →
      detectLoop p l = .ok none := by
  intro l
  induction l with
  | nil => intro _; rfl
  | cons s rest ih =>
    intro h
    have hs : p.querySelector s = .ok none := h s (by simp)
    simp only [detectLoop, hs]
    exact ih (fun t ht => h t (by simp [ht]))

/-- C8 (confirmed).  Detection probes the structural selector list first:
the first selector that yields an element decides the result immediately —
presence, the kind classified from that selector's own text, and the
matched handle — whatever the page text says (in particular the
recaptcha-iframe selector classifies as `recaptcha`); only when every
structural probe returns no element does the full-page text scan run,
reporting kind `unknown` with no handle on a phrase hit and absence
otherwise. -/
theorem C8_detect :
    (∀ (p : Page) (i : Nat) (sel : String) (e : Elem),
      CAPTCHA_SELECTORS[i]? = some sel →
      (∀ s ∈ CAPTCHA_SELECTORS.take i, p.querySelector s = .ok none) →
      p.querySelector sel = .ok (some e) →
      detect_captcha p = (true, some (classifyCaptcha sel), some e)) ∧
    classifyCaptcha "iframe[src*='recaptcha']" = "recaptcha" ∧
    (∀ (p : Page) (txt : String),
      (∀ s ∈ CAPTCHA_SELECTORS, p.querySelector s = .ok none) →
      p.contentGet = .ok txt →
      detect_captcha p =
        (if CAPTCHA_TEXT_PATTERNS.any (fun pat => pyIn pat (pyLower txt)) then
          (true, some "unknown", none)
        else (false, none, none))) := by
  refine ⟨?_, rfl, ?_⟩
  · intro p i sel e hsel hprev hhit
    have h := detectLoop_hit p CAPTCHA_SELECTORS i sel e hsel hprev hhit
    simp [detect_captcha, h]
  · intro p txt hall hc
    have h := detectLoop_allNone p CAPTCHA_SELECTORS hall
    simp only [detect_captcha, h, hc]
    cases hf : CAPTCHA_TEXT_PATTERNS.find? (fun pat => pyIn pat (pyLower txt)) with
    | some pat =>
      have : CAPTCHA_TEXT_PATTERNS.any (fun pat => pyIn pat (pyLower txt)) = true := by
        have hm := List.mem_of_find?_eq_some hf
        have hp := List.find?_some hf
        exact List.any_eq_true.mpr ⟨pat, hm, hp⟩
      simp [this]
    | none =>
      have : CAPTCHA_TEXT_PATTERNS.any (fun pat => pyIn pat (pyLower txt)) = false := by
        rw [List.any_eq_false]
        intro x hx
        have := List.find?_eq_none.mp hf x hx
        simpa using this
      simp [this]

/-- Witness for C8: a page whose recaptcha iframe is present (and whose
text holds no phrase) is classified `recaptcha` with its handle; a page
with no structural hit but a phrase is `unknown` with no handle; a page
with neither reports absence. -/
theorem C8_witness :
    detect_captcha capHitPage = (true, some "recaptcha", some ⟨1⟩) ∧
    detect_captcha capTextPage = (true, some "unknown", none) ∧
    detect_captcha capAbsentPage = (false, none, none) := by
  refine ⟨?_, ?_, ?_⟩
  · have h := C8_detect.1 capHitPage 0 "iframe[src*='recaptcha']" ⟨1⟩ rfl
      (by simp) (by rfl)
    simpa using h
  · have h := C8_detect.2.2 capTextPage "Please Verify you are human before continuing"
      (by decide) rfl
    simpa using h
  · have h := C8_detect.2.2 capAbsentPage "hello" (by decide) rfl
    simpa using h

/-- C10 (confirmed).  `detect_captcha` never raises: an exception in a
structural probe (before any hit) or in the page-text read is swallowed and
the call returns `(false, none, none)` — indistinguishable from genuine
absence. -/
theorem C10_swallow :
    (∀ (p : Page) (i : Nat) (sel m : String),
      CAPTCHA_SELECTORS[i]? = some sel →
      (∀ s ∈ CAPTCHA_SELECTORS.take i, p.querySelector s = .ok none) →
      p.querySelector sel = .error m →
      detect_captcha p = (false, none, none)) ∧
    (∀ (p : Page) (m : String),
      (∀ s ∈ CAPTCHA_SELECTORS, p.querySelector s = .ok none) →
      p.contentGet = .error m →
      detect_captcha p = (false, none, none)) := by
  constructor
  · intro p i sel m hsel hprev herr
    have h := detectLoop_err p CAPTCHA_SELECTORS i sel m hsel hprev herr
    simp [detect_captcha, h]
  · intro p m hall hc
    have h := detectLoop_allNone p CAPTCHA_SELECTORS hall
    simp [detect_captcha, h, hc]

/-- Witness for C10: a raising first probe and a raising content read each
yield the absence triple. -/
theorem C10_witness :
    detect_captcha capErrPage = (false, none, none) ∧
    detect_captcha capContentErrPage = (false, none, none) := by
  constructor
  · exact C10_swallow.1 capErrPage 0 "iframe[src*='recaptcha']"
      "Execution context was destroyed" rfl (by simp) rfl
  · exact C10_swallow.2 capContentErrPage "Navigation interrupted the content read"
      (by decide) rfl

/-- The polling loop runs to exhaustion when every poll reports presence. -/
theorem pollLoop_present (pages : Nat → Page) :
    ∀ (fuel i : Nat),
      (∀ j, j < fuel → (detect_captcha (pages (i + j))).1 = true) →
      manualPollLoop pages i fuel = (false, i + fuel) := by
  intro fuel
  induction fuel with
  | zero => intro i _; simp [manualPollLoop]
  | succ n ih =>
    intro i h
    have h0 : (detect_captcha (pages i)).1 = true := by
      have := h 0 (Nat.succ_pos n)
      simpa using this
    simp only [manualPollLoop, h0]
    have := ih (i + 1) (fun j hj => by
      have := h (j + 1) (Nat.succ_lt_succ hj)
      simpa [Nat.add_assoc, Nat.add_comm 1 j] using this)
    simpa [Nat.add_assoc, Nat.add_comm 1 n] using this

/-- The polling loop succeeds at the first absent poll. -/
theorem pollLoop_firstAbsent (pages : Nat → Page) :
    ∀ (fuel i k : Nat), k < fuel →
      (∀ j, j < k → (detect_captcha (pages (i + j))).1 = true) →
      (detect_captcha (pages (i + k))).1 = false →
      manualPollLoop pages i fuel = (true, i + k + 1) := by
  intro fuel
  induction fuel with
  | zero => intro i k hk; exact absurd hk (Nat.not_lt_zero k)
  | succ n ih =>
    intro i k hk hpres habs
    cases k with
    | zero =>
      simp only [Nat.add_zero] at habs
      simp [manualPollLoop, habs]
    | succ k2 =>
      have h0 : (detect_captcha (pages i)).1 = true := by
        have := hpres 0 (Nat.succ_pos k2)
        simpa using this
      simp only [manualPollLoop, h0]
      have := ih (i + 1) k2 (Nat.lt_of_succ_lt_succ hk)
        (fun j hj => by
          have := hpres (j + 1) (Nat.succ_lt_succ hj)
          simpa [Nat.add_assoc, Nat.add_comm 1 j] using this)
        (by
          have : i + (k2 + 1) = i + 1 + k2 := by omega
          rw [← this]; exact habs)
      have harith : i + (k2 + 1) + 1 = i + 1 + k2 + 1 := by omega
      rw [harith]
      exact this

/-- C9 (confirmed).  With the screenshot delivered, the manual-intervention
loop polls detection up to the fixed ceiling of 30 polls, returns success
at the first poll that reports absence — after exactly `k + 1` polls when
the first `k` reported presence — and returns failure only after all 30
polls reported presence. -/
theorem C9_poll :
    (∀ (pages : Nat → Page) (k : Nat), k < wait_time →
      (∀ i, i < k → (detect_captcha (pages i)).1 = true) →
      (detect_captcha (pages k)).1 = false →
      manual_intervention (.ok ()) pages = (true, k + 1)) ∧
    (∀ pages : Nat → Page,
      (∀ i, i < wait_time → (detect_captcha (pages i)).1 = true) →
      manual_intervention (.ok ()) pages = (false, wait_time)) := by
  constructor
  · intro pages k hk hpres habs
    have := pollLoop_firstAbsent pages wait_time 0 k hk
      (fun j hj => by simpa using hpres j hj) (by simpa using habs)
    simpa [manual_intervention] using this
  · intro pages h
    have := pollLoop_present pages wait_time 0 (fun j hj => by simpa using h j hj)
    simpa [manual_intervention] using this

/-- Witness for C9: on a page timeline whose CAPTCHA is present for the
first nine polls and gone at the tenth, the loop succeeds at the tenth
poll, not after the 30-poll ceiling. -/
theorem C9_witness : manual_intervention (.ok ()) fadePages = (true, 10) := by
  have := C9_poll.1 fadePages 9 (by decide)
    (by decide) (by decide)
  simpa using this

/-- C4 (corrected).  On a page with no submit button, an enclosing form
whose Enter press is delivered, and a network-idle wait that then times
out, `_submit` raises a `BrowserAutomationError` even though a key-press
was delivered — the never-raises-once-a-key-is-sent guarantee fails. -/
theorem C4_counterexample :
    (submit_action submitEnterFailPage).2 = true ∧
    (submit_action submitEnterFailPage).1 =
      .error (submitErr "Timeout 30000ms exceeded waiting for networkidle") :=
  ⟨rfl, rfl⟩

/-- C4 as amended: exhausting the submit-button selector list alone never
fails — after exhaustion, a delivered Enter press on the enclosing form (or
on the keyboard focus) whose network-idle wait succeeds reports
`{submitted: true}` — but any error `_submit` does raise is a generic
`Failed to submit form` wrap of a post-exhaustion step (the form query, the
press, or the network-idle wait after it), and such an error can escape
after a key-press was already delivered. -/
theorem C4_amended (p : Page) (sent : Bool)
    (h : submitButtonLoop p false submitSelectors.enum = (none, sent)) :
    (∀ f : Elem, p.querySelector "form" = .ok (some f) → p.pressE f "Enter" = .ok () →
      p.waitLoad "networkidle" 20 = .ok () →
      submit_action p = (.ok [("submitted", .rbool true)], true)) ∧
    (p.querySelector "form" = .ok none → p.keyboardPress "Enter" = .ok () →
      p.waitLoad "networkidle" 21 = .ok () →
      submit_action p = (.ok [("submitted", .rbool true)], true)) ∧
    (∀ e : BAErr, (submit_action p).1 = .error e → ∃ m, e = submitErr m) := by
  refine ⟨?_, ?_, ?_⟩
  · intro f hf hp hw
    simp [submit_action, h, hf, hp, hw]
  · intro hf hk hw
    simp [submit_action, h, hf, hk, hw]
  · intro e he
    simp only [submit_action, h] at he
    cases hq : p.querySelector "form" with
    | error m =>
      simp only [hq] at he
      exact ⟨m, (Except.error.inj he).symm⟩
    | ok o =>
      cases o with
      | some f =>
        simp only [hq] at he
        cases hp : p.pressE f "Enter" with
        | error m => simp only [hp] at he; exact ⟨m, (Except.error.inj he).symm⟩
        | ok u =>
          simp only [hp] at he
          cases hw : p.waitLoad "networkidle" 20 with
          | error m => simp only [hw] at he; exact ⟨m, (Except.error.inj he).symm⟩
          | ok v => simp [hw] at he
      | none =>
        simp only [hq] at he
        cases hk : p.keyboardPress "Enter" with
        | error m => simp only [hk] at he; exact ⟨m, (Except.error.inj he).symm⟩
        | ok u =>
          simp only [hk] at he
          cases hw : p.waitLoad "networkidle" 21 with
          | error m => simp only [hw] at he; exact ⟨m, (Except.error.inj he).symm⟩
          | ok v => simp [hw] at he

/-- Witness for C4: on the all-fail page the selector list is exhausted, no
form exists, the keyboard Enter is delivered and settles, and `_submit`
reports optimistic success with a key sent. -/
theorem C4_witness :
    submit_action allFailPage = (.ok [("submitted", RVal.rbool true)], true) :=
  (C4_amended allFailPage false rfl).2.1 rfl rfl rfl

/-- C5 (corrected).  When login is given credentials and no username field
resolves, the error leaving the dispatcher is a plain base
`BrowserAutomationError` whose message merely embeds the
element-not-found text — not an `ElementNotFoundError`. -/
theorem C5_counterexample :
    execute allFailPage "login" (.loginP "github.com" (some "myuser") (some "mypass")) =
      .error ⟨.base, "Failed to login to github.com: Could not find username field"⟩ ∧
    BAKind.base ≠ BAKind.elementNotFound :=
  ⟨rfl, by decide⟩

/-- C5 as amended: the dispatcher itself re-raises every taxonomy error a
handler raises unchanged (shown for `type`, whose `ElementNotFoundError`
passes through), but `_login` and `_search` catch all exceptions — typed
ones included — and re-wrap them into a plain base `BrowserAutomationError`
(`Failed to login to …` / `Failed to search for …`), so in the
credentials-without-username-field and no-search-field scenarios the error
leaving the dispatcher is of base kind with the element-not-found text
embedded in its message. -/
theorem C5_amended :
    (∀ (p : Page) (t f : String) (e : BAErr),
      type_action p t f = .error e → execute p "type" (.typeP t f) = .error e) ∧
    (∀ (p : Page) (w u pw : String) (r : RDict),
      navigate_action p w = .ok r → u ≠ "" → pw ≠ "" →
      fillFirst p u usernameFields = false →
      execute p "login" (.loginP w (some u) (some pw)) =
        .error ⟨.base, "Failed to login to " ++ w ++ ": Could not find username field"⟩) ∧
    (∀ (p : Page) (q w : String) (r : RDict),
      navigate_action p w = .ok r → fillFirst p q searchFields = false →
      p.wfs genericSearchSelector 5000 = .ok none →
      execute p "search" (.searchP q w) =
        .error ⟨.base,
          "Failed to search for '" ++ q ++ "' on " ++ w ++ ": Could not find search field"⟩) := by
  refine ⟨?_, ?_, ?_⟩
  · intro p t f e he
    have hx : execute p "type" (.typeP t f) = type_action p t f := rfl
    rw [hx, he]
  · intro p w u pw r hnav hu hpw hfill
    have hx : execute p "login" (.loginP w (some u) (some pw)) =
        login_action p w (some u) (some pw) := rfl
    rw [hx]
    simp [login_action, login_body, hnav, hu, hpw, hfill, pyStr, String.append_assoc]
  · intro p q w r hnav hfill hbox
    have hx : execute p "search" (.searchP q w) = search_action p q w := rfl
    rw [hx]
    simp [search_action, search_body, hnav, hfill, hbox, pyStr, String.append_assoc]

/-- Witness for C5: the three parts applied on concrete pages — the typed
error of `type` passes through `execute` unchanged, while the login and
search scenarios surface base-kind wraps. -/
theorem C5_witness :
    execute allFailPage "type" (.typeP "a" "b") = .error (notFoundErr "b") ∧
    execute allFailPage "login" (.loginP "github.com" (some "myuser") (some "mypass")) =
      .error ⟨.base, "Failed to login to github.com: Could not find username field"⟩ ∧
    execute searchNoBoxPage "search" (.searchP "cats" "bing.com") =
      .error ⟨.base, "Failed to search for 'cats' on bing.com: Could not find search field"⟩ := by
  refine ⟨?_, ?_, ?_⟩
  · exact C5_amended.1 allFailPage "a" "b" (notFoundErr "b") rfl
  · exact C5_amended.2.1 allFailPage "github.com" "myuser" "mypass"
      [("url", .rstr "https://github.com/"), ("title", .rstr "GitHub")]
      rfl (by decide) (by decide) rfl
  · exact C5_amended.2.2 searchNoBoxPage "cats" "bing.com"
      [("url", .rstr "https://github.com/"), ("title", .rstr "GitHub")]
      rfl rfl rfl

/-- The common-selector loop returns the first probe hit and fails with
`ElementNotFoundError` on exhaustion, whatever trace it started from. -/
theorem commonLoop_fst (p : Page) (id : String) :
    ∀ (l : List String) (tr : List (String × Nat)),
      (commonLoop p id l tr).1 = chainToResult (firstCommonHit p l) id := by
  intro l
  induction l with
  | nil => intro tr; rfl
  | cons s rest ih =>
    intro tr
    simp only [commonLoop, firstCommonHit]
    rcases h : p.wfs s 1000 with m | o
    · exact ih (tr ++ [(s, 1000)])
    · cases o with
      | some e => rfl
      | none => exact ih (tr ++ [(s, 1000)])

/-- The common-selector loop only appends 1000 ms probes to the trace. -/
theorem commonLoop_trace (p : Page) (id : String) :
    ∀ (l : List String) (tr : List (String × Nat)),
      ∃ q, (commonLoop p id l tr).2 = tr ++ q ∧ ∀ c ∈ q, c.2 = 1000 := by
  intro l
  induction l with
  | nil => intro tr; exact ⟨[], by simp [commonLoop], by simp⟩
  | cons s rest ih =>
    intro tr
    simp only [commonLoop]
    rcases h : p.wfs s 1000 with m | o
    · obtain ⟨q, hq, hall⟩ := ih (tr ++ [(s, 1000)])
      refine ⟨(s, 1000) :: q, by simpa using hq, ?_⟩
      intro c hc
      rcases List.mem_cons.mp hc with hc | hc
      · rw [hc]
      · exact hall c hc
    · cases o with
      | some e =>
        exact ⟨[(s, 1000)], rfl, by simp⟩
      | none =>
        obtain ⟨q, hq, hall⟩ := ih (tr ++ [(s, 1000)])
        refine ⟨(s, 1000) :: q, by simpa using hq, ?_⟩
        intro c hc
        rcases List.mem_cons.mp hc with hc | hc
        · rw [hc]
        · exact hall c hc

/-- The label fallback agrees with its claims-side chain, falling to the
common selectors exactly when the chain yields nothing. -/
theorem labelFallback_fst (p : Page) (id : String) (lab : Elem)
    (tr : List (String × Nat)) :
    (labelFallback p id lab tr).1 =
      chainToResult (oElse (labelFallbackChain p lab) fun _ =>
        firstCommonHit p (commonSelectors id)) id := by
  unfold labelFallback labelFallbackChain
  rcases h : p.querySelectorIn lab "input" with m | o
  · simp only [oElse]
    exact commonLoop_fst p id (commonSelectors id) tr
  · cases o with
    | some inner => rfl
    | none => rfl

/-- The label fallback only appends 1000 ms probes to the trace. -/
theorem labelFallback_trace (p : Page) (id : String) (lab : Elem)
    (tr : List (String × Nat)) :
    ∃ q, (labelFallback p id lab tr).2 = tr ++ q ∧ ∀ c ∈ q, c.2 = 1000 := by
  unfold labelFallback
  rcases h : p.querySelectorIn lab "input" with m | o
  · exact commonLoop_trace p id (commonSelectors id) tr
  · cases o with
    | some inner => exact ⟨[], by simp, by simp⟩
    | none => exact ⟨[], by simp, by simp⟩

/-- The label phase agrees with its claims-side chain, falling to the
common selectors exactly when the chain yields nothing. -/
theorem labelPhase_fst (p : Page) (id : String) (lab : Elem)
    (tr : List (String × Nat)) :
    (labelPhase p id lab tr).1 =
      chainToResult (oElse (labelPhaseChain p lab) fun _ =>
        firstCommonHit p (commonSelectors id)) id := by
  unfold labelPhase labelPhaseChain
  rcases h : p.getAttribute lab "for" with m | o
  · simp only [oElse]
    exact commonLoop_fst p id (commonSelectors id) tr
  · cases o with
    | some lf =>
      by_cases hlf : lf ≠ ""
      · simp only [if_pos hlf]
        rcases h2 : p.wfs ("#" ++ lf) 1000 with m2 | o2
        · simp only [oElse]
          exact commonLoop_fst p id (commonSelectors id) (tr ++ [("#" ++ lf, 1000)])
        · cases o2 with
          | some ie => rfl
          | none =>
            exact labelFallback_fst p id lab (tr ++ [("#" ++ lf, 1000)])
      · simp only [if_neg hlf]
        exact labelFallback_fst p id lab tr
    | none =>
      exact labelFallback_fst p id lab tr

/-- The label phase only appends 1000 ms probes to the trace. -/
theorem labelPhase_trace (p : Page) (id : String) (lab : Elem)
    (tr : List (String × Nat)) :
    ∃ q, (labelPhase p id lab tr).2 = tr ++ q ∧ ∀ c ∈ q, c.2 = 1000 := by
  unfold labelPhase
  rcases h : p.getAttribute lab "for" with m | o
  · exact commonLoop_trace p id (commonSelectors id) tr
  · cases o with
    | some lf =>
      by_cases hlf : lf ≠ ""
      · simp only [if_pos hlf]
        rcases h2 : p.wfs ("#" ++ lf) 1000 with m2 | o2
        · obtain ⟨q, hq, hall⟩ := commonLoop_trace p id (commonSelectors id)
            (tr ++ [("#" ++ lf, 1000)])
          refine ⟨("#" ++ lf, 1000) :: q, by simpa using hq, ?_⟩
          intro c hc
          rcases List.mem_cons.mp hc with hc | hc
          · rw [hc]
          · exact hall c hc
        · cases o2 with
          | some ie =>
            exact ⟨[("#" ++ lf, 1000)], rfl, by simp⟩
          | none =>
            obtain ⟨q, hq, hall⟩ := labelFallback_trace p id lab
              (tr ++ [("#" ++ lf, 1000)])
            refine ⟨("#" ++ lf, 1000) :: q, by simpa using hq, ?_⟩
            intro c hc
            rcases List.mem_cons.mp hc with hc | hc
            · rw [hc]
            · exact hall c hc
      · simp only [if_neg hlf]
        exact labelFallback_trace p id lab tr
    | none =>
      exact labelFallback_trace p id lab tr

/-- C2 as amended: resolution is a first-match chain over the strategies as
the code orders them — text, placeholder, the label strategy whose truthy
`for` attribute commits (a raising `#id` lookup skips the nested-control
and label-itself fallbacks), then the common selectors — returning exactly
the first strategy's element and failing with `ElementNotFoundError`
carrying the identifier precisely when that chain is spent. -/
theorem C2_amended (p : Page) (id : String) (t : Nat) :
    (find_element p id t).1 = chainToResult (findChainAmended p id t) id := by
  unfold find_element findChainAmended
  rcases h1 : p.wfs (textSelector id) t with m1 | o1
  · rcases h2 : p.wfs (placeholderSelector id) t with m2 | o2
    · rcases h3 : p.wfs (labelSelector id) t with m3 | o3
      · simp only [probeHit, oElse]
        exact commonLoop_fst p id (commonSelectors id) _
      · cases o3 with
        | some lab =>
          simpa [probeHit, oElse] using labelPhase_fst p id lab
            [(textSelector id, t), (placeholderSelector id, t), (labelSelector id, t)]
        | none =>
          simp only [probeHit, oElse]
          exact commonLoop_fst p id (commonSelectors id) _
    · cases o2 with
      | some e => rfl
      | none =>
        rcases h3 : p.wfs (labelSelector id) t with m3 | o3
        · simp only [probeHit, oElse]
          exact commonLoop_fst p id (commonSelectors id) _
        · cases o3 with
          | some lab =>
            simpa [probeHit, oElse] using labelPhase_fst p id lab
              [(textSelector id, t), (placeholderSelector id, t), (labelSelector id, t)]
          | none =>
            simp only [probeHit, oElse]
            exact commonLoop_fst p id (commonSelectors id) _
  · cases o1 with
    | some e => rfl
    | none =>
      rcases h2 : p.wfs (placeholderSelector id) t with m2 | o2
      · rcases h3 : p.wfs (labelSelector id) t with m3 | o3
        · simp only [probeHit, oElse]
          exact commonLoop_fst p id (commonSelectors id) _
        · cases o3 with
          | some lab =>
            simpa [probeHit, oElse] using labelPhase_fst p id lab
              [(textSelector id, t), (placeholderSelector id, t), (labelSelector id, t)]
          | none =>
            simp only [probeHit, oElse]
            exact commonLoop_fst p id (commonSelectors id) _
      · cases o2 with
        | some e => rfl
        | none =>
          rcases h3 : p.wfs (labelSelector id) t with m3 | o3
          · simp only [probeHit, oElse]
            exact commonLoop_fst p id (commonSelectors id) _
          · cases o3 with
            | some lab =>
              simpa [probeHit, oElse] using labelPhase_fst p id lab
                [(textSelector id, t), (placeholderSelector id, t), (labelSelector id, t)]
            | none =>
              simp only [probeHit, oElse]
              exact commonLoop_fst p id (commonSelectors id) _

/-- C2 (corrected).  On a page whose `username` label carries a `for`
attribute whose target lookup raises while an `input` control sits nested
inside the label, the claimed chain resolves that nested control, but
`_find_element` skips the nested-control and label-itself fallbacks,
exhausts the common selectors, and fails with `ElementNotFoundError` even
though a strategy of the claimed chain matches. -/
theorem C2_counterexample :
    (find_element labelCommitPage "username" 5000).1 = .error (notFoundErr "username") ∧
    labelCommitPage.querySelectorIn ⟨1⟩ "input" = .ok (some ⟨2⟩) ∧
    resolveSpecOrder labelCommitPage "username" 5000 = some ⟨2⟩ :=
  ⟨rfl, rfl, rfl⟩

/-- C3 (corrected).  On a page where every probe fails, the resolution
trace's second call — the placeholder strategy — carries the full 5000 ms
budget, so it is false that every strategy after the first is bounded by a
timeout shorter than the budget. -/
theorem C3_counterexample :
    ((find_element allFailPage "x" 5000).2.drop 1).all
        (fun c => decide (c.2 < 5000)) = false ∧
    (find_element allFailPage "x" 5000).2[1]? = some (placeholderSelector "x", 5000) :=
  ⟨by decide, by decide⟩

/-- The resolution trace is some initial segment of the three full-budget
strategy probes followed only by 1000 ms probes. -/
theorem find_element_trace (p : Page) (id : String) (t : Nat) :
    ∃ k, 1 ≤ k ∧ k ≤ 3 ∧ ∃ q,
      (find_element p id t).2 =
        ([(textSelector id, t), (placeholderSelector id, t),
          (labelSelector id, t)].take k) ++ q ∧
      ∀ c ∈ q, c.2 = 1000 := by
  simp only [find_element]
  rcases h1 : p.wfs (textSelector id) t with m1 | o1
  · rcases h2 : p.wfs (placeholderSelector id) t with m2 | o2
    · rcases h3 : p.wfs (labelSelector id) t with m3 | o3
      · obtain ⟨q, hq, hall⟩ := commonLoop_trace p id (commonSelectors id)
          [(textSelector id, t), (placeholderSelector id, t), (labelSelector id, t)]
        exact ⟨3, by omega, by omega, q, hq, hall⟩
      · cases o3 with
        | some lab =>
          obtain ⟨q, hq, hall⟩ := labelPhase_trace p id lab
            [(textSelector id, t), (placeholderSelector id, t), (labelSelector id, t)]
          exact ⟨3, by omega, by omega, q, hq, hall⟩
        | none =>
          obtain ⟨q, hq, hall⟩ := commonLoop_trace p id (commonSelectors id)
            [(textSelector id, t), (placeholderSelector id, t), (labelSelector id, t)]
          exact ⟨3, by omega, by omega, q, hq, hall⟩
    · cases o2 with
      | some e => exact ⟨2, by omega, by omega, [], by simp, by simp⟩
      | none =>
        rcases h3 : p.wfs (labelSelector id) t with m3 | o3
        · obtain ⟨q, hq, hall⟩ := commonLoop_trace p id (commonSelectors id)
            [(textSelector id, t), (placeholderSelector id, t), (labelSelector id, t)]
          exact ⟨3, by omega, by omega, q, hq, hall⟩
        · cases o3 with
          | some lab =>
            obtain ⟨q, hq, hall⟩ := labelPhase_trace p id lab
              [(textSelector id, t), (placeholderSelector id, t), (labelSelector id, t)]
            exact ⟨3, by omega, by omega, q, hq, hall⟩
          | none =>
            obtain ⟨q, hq, hall⟩ := commonLoop_trace p id (commonSelectors id)
              [(textSelector id, t), (placeholderSelector id, t), (labelSelector id, t)]
            exact ⟨3, by omega, by omega, q, hq, hall⟩
  · cases o1 with
    | some e => exact ⟨1, by omega, by omega, [], by simp, by simp⟩
    | none =>
      rcases h2 : p.wfs (placeholderSelector id) t with m2 | o2
      · rcases h3 : p.wfs (labelSelector id) t with m3 | o3
        · obtain ⟨q, hq, hall⟩ := commonLoop_trace p id (commonSelectors id)
            [(textSelector id, t), (placeholderSelector id, t), (labelSelector id, t)]
          exact ⟨3, by omega, by omega, q, hq, hall⟩
        · cases o3 with
          | some lab =>
            obtain ⟨q, hq, hall⟩ := labelPhase_trace p id lab
              [(textSelector id, t), (placeholderSelector id, t), (labelSelector id, t)]
            exact ⟨3, by omega, by omega, q, hq, hall⟩
          | none =>
            obtain ⟨q, hq, hall⟩ := commonLoop_trace p id (commonSelectors id)
              [(textSelector id, t), (placeholderSelector id, t), (labelSelector id, t)]
            exact ⟨3, by omega, by omega, q, hq, hall⟩
      · cases o2 with
        | some e => exact ⟨2, by omega, by omega, [], by simp, by simp⟩
        | none =>
          rcases h3 : p.wfs (labelSelector id) t with m3 | o3
          · obtain ⟨q, hq, hall⟩ := commonLoop_trace p id (commonSelectors id)
              [(textSelector id, t), (placeholderSelector id, t), (labelSelector id, t)]
            exact ⟨3, by omega, by omega, q, hq, hall⟩
          · cases o3 with
            | some lab =>
              obtain ⟨q, hq, hall⟩ := labelPhase_trace p id lab
                [(textSelector id, t), (placeholderSelector id, t), (labelSelector id, t)]
              exact ⟨3, by omega, by omega, q, hq, hall⟩
            | none =>
              obtain ⟨q, hq, hall⟩ := commonLoop_trace p id (commonSelectors id)
                [(textSelector id, t), (placeholderSelector id, t), (labelSelector id, t)]
              exact ⟨3, by omega, by omega, q, hq, hall⟩

/-- C3 as amended: every `wait_for_selector` call the resolution chain
issues carries either the full budget or the fixed 1000 ms: the text,
placeholder and label strategies each receive the whole budget (the first
call is always the text probe at the full budget), and only the label's
`for`-target sub-lookup and the eight common-selector probes are bounded by
1000 ms. -/
theorem C3_amended (p : Page) (id : String) (t : Nat) :
    (find_element p id t).2[0]? = some (textSelector id, t) ∧
    ∀ c ∈ (find_element p id t).2,
      c = (textSelector id, t) ∨ c = (placeholderSelector id, t) ∨
        c = (labelSelector id, t) ∨ c.2 = 1000 := by
  obtain ⟨k, hk1, hk3, q, htr, hall⟩ := find_element_trace p id t
  interval_cases k
  · refine ⟨by rw [htr]; simp, ?_⟩
    intro c hc
    rw [htr] at hc
    rcases List.mem_append.mp hc with hmem | hmem
    · left; simpa using hmem
    · right; right; right; exact hall c hmem
  · refine ⟨by rw [htr]; simp, ?_⟩
    intro c hc
    rw [htr] at hc
    rcases List.mem_append.mp hc with hmem | hmem
    · simp only [List.take, List.mem_cons, List.not_mem_nil, or_false] at hmem
      rcases hmem with h | h
      · left; exact h
      · right; left; exact h
    · right; right; right; exact hall c hmem
  · refine ⟨by rw [htr]; simp, ?_⟩
    intro c hc
    rw [htr] at hc
    rcases List.mem_append.mp hc with hmem | hmem
    · simp only [List.take, List.mem_cons, List.not_mem_nil, or_false] at hmem
      rcases hmem with h | h | h
      · left; exact h
      · right; left; exact h
      · right; right; left; exact h
    · right; right; right; exact hall c hmem

end Agent

